import Mathlib

/-!
Verification of the token-lifecycle core of django-simple-sso
(`simple_sso/sso_server/server.py`) against its specification.

The Django views and webservice providers are embedded as pure functions
over an explicit token store (a list of `Token` records standing for the
database table).  Wall-clock time is passed in as an integer number of
seconds (`now`); the `datetime.timedelta` timeouts become integers.

The ORM model classes (`simple_sso/sso_server/models.py`) are not part of
the sources at hand; the operations they provide (`Token.objects.create`,
`Token.refresh`, cascade deletion from a session) are modelled from the
specification where noted.  The external collaborators — the itsdangerous
signing serializer and the urllib URL parsing — are modelled at their
interface: signing is an arbitrary function parameter, and a URL is kept in
its parsed form.
-/

namespace SimpleSSO

/-- A registered consumer application: opaque public identifier and the
shared signing secret. -/
structure Consumer where
  id : Nat
  public_key : String
  private_key : String
deriving Repr, DecidableEq

/-- A user group, of which only the name is ever read
(`group.name` in `Server.get_user_data`). -/
structure Group where
  name : String
deriving Repr, DecidableEq

/-- The authenticated end user, with exactly the attributes
`Server.get_user_data` reads. -/
structure User where
  id : Nat
  username : String
  email : String
  first_name : String
  last_name : String
  is_staff : Bool
  is_superuser : Bool
  is_active : Bool
  groups : List Group
deriving Repr, DecidableEq

/-- A URL in parsed form, as produced by `urllib.parse.urlparse` together
with its query string parsed into key/value pairs (`QueryDict`).  The
percent-encoding of the standard library is not modelled: keys and values
are kept abstract strings. -/
structure URL where
  scheme : String
  netloc : String
  path : String
  params : String
  query : List (String × String)
  fragment : String
deriving Repr, DecidableEq

/-- Modelled from the spec: the `Token` model
(`simple_sso/sso_server/models.py`, not among the sources).  Per §3 of the
spec a Token carries a unique `request_token` and `access_token`, the owning
`consumer`, the `redirect_to` destination, the last-refresh `timestamp`, and
the nullable `user` and `session` bindings.  `id` is the database primary
key. -/
structure Token where
  id : Nat
  request_token : String
  access_token : String
  consumer : Consumer
  redirect_to : URL
  timestamp : Int
  user : Option User
  session : Option Nat
deriving Repr, DecidableEq

/-- The token table (`Token.objects`). -/
abbrev TokenStore := List Token

/-- `Token.objects.get(request_token=...)`: lookup by request token
(no consumer filter, matching `AuthorizeView.get`). -/
def findByRequestToken (ts : TokenStore) (rt : String) : Option Token :=
  ts.find? (fun t => t.request_token == rt)

/-- `Token.objects.get(access_token=..., consumer=self.consumer)`: lookup by
access token, additionally filtered by the authenticated consumer
(matching `VerificationProvider.provide` and `LogoutProvider.provide`). -/
def findByAccessToken (ts : TokenStore) (atk : String) (consumer : Consumer) :
    Option Token :=
  ts.find? (fun t => t.access_token == atk && t.consumer == consumer)

/-- `self.token.delete()`: remove the row with this primary key. -/
def deleteToken (ts : TokenStore) (tok : Token) : TokenStore :=
  ts.filter (fun t => t.id ≠ tok.id)

/-- `self.token.save()`: write the (possibly modified) row back under its
primary key. -/
def saveToken (ts : TokenStore) (tok : Token) : TokenStore :=
  ts.map (fun t => if t.id = tok.id then tok else t)

/-- Modelled from the spec: `Token.refresh`
(`simple_sso/sso_server/models.py`, not among the sources) — "timestamp
(last-refresh time, updated whenever the token is touched)" (§3): sets the
timestamp to now and saves.  Returns the refreshed row and the updated
store. -/
def refreshToken (ts : TokenStore) (tok : Token) (now : Int) :
    Token × TokenStore :=
  let tok2 := { tok with timestamp := now }
  (tok2, saveToken ts tok2)

/-- Modelled from the spec: `Token.objects.create`
(`simple_sso/sso_server/models.py`, not among the sources) — "generates
fresh unguessable request_token and access_token, sets timestamp = now,
user/session unset" (§4.3).  Freshness of `id`, `rt` and `atk` is supplied
by the caller. -/
def createToken (id : Nat) (rt atk : String) (consumer : Consumer)
    (redirect_to : URL) (now : Int) : Token :=
  { id := id, request_token := rt, access_token := atk, consumer := consumer,
    redirect_to := redirect_to, timestamp := now, user := none,
    session := none }

/-- A JSON-ish value as carried in the `extra_data` field of a verify
payload; `truthy` mirrors Python truthiness for the `if extra_data:`
check. -/
inductive ExtraPayload where
  | null
  | str (s : String)
  | obj (fields : List (String × String))
deriving Repr, DecidableEq

/-- Python truthiness of an `ExtraPayload`: `None`, `""` and `{}` are
falsy. -/
def ExtraPayload.truthy : ExtraPayload → Bool
  | .null => false
  | .str s => !(s == "")
  | .obj fields => !fields.isEmpty

/-- Outcome of the `get_user_extra_data` hook: either a value merged into
the profile, or the `NotImplementedError` the base class raises. -/
inductive ExtraResult where
  | value (v : String)
  | notImplementedError
deriving Repr, DecidableEq

/-- The server configuration and policy hooks (`Server`).  The overridable
methods `has_access` and `get_user_extra_data` are carried as function
fields; the base class bodies are `default_has_access` and
`default_get_user_extra_data` below. -/
structure Server where
  token_timeout : Int
  token_verify_timeout : Int
  has_access : User → Consumer → Bool
  get_user_extra_data : User → Consumer → ExtraPayload → ExtraResult

/-- `Server.has_access` in the base class: `return True`. -/
def default_has_access (_user : User) (_consumer : Consumer) : Bool :=
  true

/-- `Server.get_user_extra_data` in the base class:
`raise NotImplementedError()`. -/
def default_get_user_extra_data (_user : User) (_consumer : Consumer)
    (_extra_data : ExtraPayload) : ExtraResult :=
  .notImplementedError

/-- The HTTP responses the views produce.  `redirect` carries a parsed URL
(from `AuthorizeView.success`); `redirectRaw` carries a textual location
(the login redirect of `handle_unauthenticated_user`, whose contents no
claim inspects beyond the embedded request token). -/
inductive HResponse where
  | badRequest (body : String)
  | forbidden (body : String)
  | redirect (url : URL)
  | redirectRaw (location : String)
deriving Repr, DecidableEq

/-- `AuthorizeView.missing_token_argument`. -/
def missing_token_argument : HResponse := .badRequest "Token missing"

/-- `AuthorizeView.token_not_found`. -/
def token_not_found : HResponse := .forbidden "Token not found"

/-- `AuthorizeView.token_timeout`. -/
def token_timeout_response : HResponse := .forbidden "Token timed out"

/-- `AuthorizeView.access_denied`. -/
def access_denied : HResponse := .forbidden "Access denied"

/-- `VerificationProvider.token_not_bound`. -/
def token_not_bound : HResponse := .forbidden "Invalid token"

/-- `AuthorizeView.check_token_timeout`: computes `now - timestamp`; when it
exceeds the timeout deletes the token and answers `false`, otherwise
answers `true` leaving the store untouched. -/
def check_token_timeout (ts : TokenStore) (tok : Token) (now : Int)
    (timeout : Int) : Bool × TokenStore :=
  let delta := now - tok.timestamp
  if delta > timeout then (false, deleteToken ts tok)
  else (true, ts)

/-- The parts of the Django request `AuthorizeView.get` reads: the `token`
query parameter (`none` when absent), the authenticated user (`none` mirrors
`request.user.is_authenticated` being false), and the session key. -/
structure AuthRequest where
  token_param : Option String
  user : Option User
  session_key : Nat
deriving Repr, DecidableEq

/-- `QueryDict.__setitem__` followed by `urlencode`, at the level of
key/value pairs: an existing key keeps the position of its first occurrence
and is given the single new value (later duplicates collapse), a new key is
appended at the end. -/
def qdSetItem : List (String × String) → String → String →
    List (String × String)
  | [], k, v => [(k, v)]
  | p :: rest, k, v =>
    if p.1 == k then (k, v) :: rest.filter (fun r => !(r.1 == k))
    else p :: qdSetItem rest k v

/-- `AuthorizeView.success`: binds the token to the requesting user and the
current session, saves it, signs the access token with the consumer's
private key (`URLSafeTimedSerializer(...).dumps`, abstracted as `sign`),
sets the signed value as the `access_token` query parameter of
`redirect_to`, and redirects to the rebuilt URL (`urlunparse` with empty
params and fragment). -/
def AuthorizeView.success (sign : String → String → String) (user : User)
    (session_key : Nat) (tok : Token) (ts : TokenStore) :
    HResponse × TokenStore :=
  let tok2 := { tok with user := some user, session := some session_key }
  let ts2 := saveToken ts tok2
  let signed := sign tok2.consumer.private_key tok2.access_token
  let pr := tok2.redirect_to
  let url : URL :=
    { scheme := pr.scheme, netloc := pr.netloc, path := pr.path,
      params := "", query := qdSetItem pr.query "access_token" signed,
      fragment := "" }
  (.redirect url, ts2)

/-- `AuthorizeView.handle_unauthenticated_user`: redirect the browser to the
login view with a `next` parameter leading back to this authorize endpoint
with the same request token.  The percent-encoding of `urlencode` is not
modelled; `authPath` stands for `reverse(self.server.auth_view_name)` and
`requestPath` for `self.request.path`. -/
def AuthorizeView.handle_unauthenticated_user (authPath requestPath : String)
    (tok : Token) : HResponse :=
  let next := requestPath ++ "?" ++ "token=" ++ tok.request_token
  .redirectRaw (authPath ++ "?" ++ "next=" ++ next)

/-- `AuthorizeView.handle_authenticated_user`: consult
`server.has_access(user, token.consumer)`; grant via `success` or answer
`access_denied`. -/
def AuthorizeView.handle_authenticated_user (srv : Server)
    (sign : String → String → String) (user : User) (session_key : Nat)
    (tok : Token) (ts : TokenStore) : HResponse × TokenStore :=
  if srv.has_access user tok.consumer then
    AuthorizeView.success sign user session_key tok ts
  else (access_denied, ts)

/-- `AuthorizeView.get`: the browser-facing authorize endpoint.  A missing
or empty `token` parameter (`if not request_token`) is a bad request; an
unresolved request token is forbidden; an expired token is deleted and
forbidden; a live token is refreshed and then handed to the
authenticated/unauthenticated branch. -/
def AuthorizeView.get (srv : Server) (sign : String → String → String)
    (authPath requestPath : String) (req : AuthRequest) (now : Int)
    (ts : TokenStore) : HResponse × TokenStore :=
  match req.token_param with
  | none => (missing_token_argument, ts)
  | some rt =>
    if rt == "" then (missing_token_argument, ts)
    else
      match findByRequestToken ts rt with
      | none => (token_not_found, ts)
      | some tok =>
        let checked := check_token_timeout ts tok now srv.token_timeout
        if checked.1 then
          let refreshed := refreshToken checked.2 tok now
          match req.user with
          | some user =>
            AuthorizeView.handle_authenticated_user srv sign user
              req.session_key refreshed.1 refreshed.2
          | none =>
            (AuthorizeView.handle_unauthenticated_user authPath requestPath
              refreshed.1, refreshed.2)
        else (token_timeout_response, checked.2)

/-- The deserialized payload of a signed provider request, as a partial
record: Python's `data[key]` raises `KeyError` when the field is absent,
`data.get(key, None)` yields `None`. -/
structure Payload where
  redirect_to : Option URL
  access_token : Option String
  extra_data : Option ExtraPayload
deriving Repr, DecidableEq

/-- An exception escaping a provider uncaught (`BaseProvider.get_response`
catches only `ThrowableHttpResponse`). -/
inductive Fault where
  | keyError (key : String)
  | notImplementedError
deriving Repr, DecidableEq

/-- The user-data dictionary built by `Server.get_user_data`; the
`extra_data` key is present only when the branch adding it ran. -/
structure UserData where
  username : String
  email : String
  first_name : String
  last_name : String
  is_staff : Bool
  is_superuser : Bool
  is_active : Bool
  groups : List String
  extra_data : Option String
deriving Repr, DecidableEq

/-- What a verify request produces when no exception escapes: either an
`HttpResponse` delivered through `ThrowableHttpResponse`, or the user-data
dictionary. -/
inductive VerifyOutcome where
  | http (r : HResponse)
  | profile (d : UserData)
deriving Repr, DecidableEq

/-- `Server.get_user_data`: collects the group names, builds the masked
profile (`is_staff` and `is_superuser` hard-coded to `False`), and only when
`extra_data` is truthy invokes the `get_user_extra_data` hook — whose base
implementation raises `NotImplementedError`. -/
def Server.get_user_data (srv : Server) (user : User) (consumer : Consumer)
    (extra_data : ExtraPayload) : Except Fault UserData :=
  let groups := user.groups.map Group.name
  let user_data : UserData :=
    { username := user.username, email := user.email,
      first_name := user.first_name, last_name := user.last_name,
      is_staff := false, is_superuser := false,
      is_active := user.is_active, groups := groups, extra_data := none }
  if extra_data.truthy then
    match srv.get_user_extra_data user consumer extra_data with
    | .notImplementedError => .error .notImplementedError
    | .value v => .ok { user_data with extra_data := some v }
  else .ok user_data

/-- `RequestTokenProvider.provide`: reads `data['redirect_to']` (a missing
field escapes as `KeyError`), creates a fresh token for the authenticated
consumer, and answers its request token.  The fresh identifiers the model
layer would generate are parameters. -/
def RequestTokenProvider.provide (consumer : Consumer)
    (freshId : Nat) (freshRt freshAtk : String) (data : Payload) (now : Int)
    (ts : TokenStore) : Except Fault (String × TokenStore) :=
  match data.redirect_to with
  | none => .error (.keyError "redirect_to")
  | some redirect_to =>
    let tok := createToken freshId freshRt freshAtk consumer redirect_to now
    .ok (tok.request_token, ts ++ [tok])

/-- `VerificationProvider.provide`: reads `data['access_token']` (a missing
field escapes as `KeyError`), looks the token up by access token and
consumer, checks expiry with `token_verify_timeout` (without any refresh),
rejects an unbound token, and otherwise answers `get_user_data` on the bound
user with `data.get('extra_data', None)`. -/
def VerificationProvider.provide (srv : Server) (consumer : Consumer)
    (data : Payload) (now : Int) (ts : TokenStore) :
    Except Fault (VerifyOutcome × TokenStore) :=
  match data.access_token with
  | none => .error (.keyError "access_token")
  | some atk =>
    match findByAccessToken ts atk consumer with
    | none => .ok (.http token_not_found, ts)
    | some tok =>
      let checked := check_token_timeout ts tok now srv.token_verify_timeout
      if checked.1 then
        match tok.user with
        | none => .ok (.http token_not_bound, checked.2)
        | some user =>
          let extra_data := (data.extra_data).getD .null
          match srv.get_user_data user consumer extra_data with
          | .error f => .error f
          | .ok d => .ok (.profile d, checked.2)
      else .ok (.http token_timeout_response, checked.2)

/-- What a logout request produces when no exception escapes: an
`HttpResponse` via `ThrowableHttpResponse`, or `{'status': 'ok'}`. -/
inductive LogoutOutcome where
  | http (r : HResponse)
  | statusOk
deriving Repr, DecidableEq

/-- Modelled from the spec: deleting a session cascades to every token bound
to it — "Deleting the bound session must delete the Token (cascade)" (§3);
the cascade is configured in `models.py`, not among the sources. -/
def deleteSessionCascade (ts : TokenStore) (sessions : List Nat) (sk : Nat) :
    TokenStore × List Nat :=
  (ts.filter (fun t => t.session ≠ some sk), sessions.filter (fun s => s ≠ sk))

/-- `LogoutProvider.provide`: same lookup and verify-timeout check as
verification, rejects a token with no bound session, then deletes the bound
session (the cascade removes the token) and answers `{'status': 'ok'}`. -/
def LogoutProvider.provide (srv : Server) (consumer : Consumer)
    (data : Payload) (now : Int) (ts : TokenStore) (sessions : List Nat) :
    Except Fault (LogoutOutcome × TokenStore × List Nat) :=
  match data.access_token with
  | none => .error (.keyError "access_token")
  | some atk =>
    match findByAccessToken ts atk consumer with
    | none => .ok (.http token_not_found, ts, sessions)
    | some tok =>
      let checked := check_token_timeout ts tok now srv.token_verify_timeout
      if checked.1 then
        match tok.session with
        | none => .ok (.http token_not_bound, checked.2, sessions)
        | some sk =>
          let after := deleteSessionCascade checked.2 sessions sk
          .ok (.statusOk, after.1, after.2)
      else .ok (.http token_timeout_response, checked.2, sessions)

/-- A provider result wrote nothing: every non-exception outcome carries the
store it was given. -/
def storeUnchanged (res : Except Fault (VerifyOutcome × TokenStore))
    (ts : TokenStore) : Prop :=
  ∀ out ts2, res = .ok (out, ts2) → ts2 = ts

/-! ### Concrete fixtures used by witnesses and counterexamples -/

/-- A concrete stand-in for `URLSafeTimedSerializer(key).dumps(value)`. -/
def signEx (key msg : String) : String := key ++ "." ++ msg

/-- A registered consumer. -/
def consumer1 : Consumer :=
  { id := 1, public_key := "pub1", private_key := "priv1" }

/-- A second registered consumer, used for cross-consumer scenarios. -/
def consumer2 : Consumer :=
  { id := 2, public_key := "pub2", private_key := "priv2" }

/-- A staff superuser, to exercise the profile masking. -/
def user1 : User :=
  { id := 1, username := "alice", email := "alice@example.com",
    first_name := "Alice", last_name := "Liddell", is_staff := true,
    is_superuser := true, is_active := true,
    groups := [{ name := "admins" }, { name := "editors" }] }

/-- A second user, used for re-authorization scenarios. -/
def user2 : User :=
  { id := 2, username := "bob", email := "bob@example.com",
    first_name := "Bob", last_name := "Builder", is_staff := false,
    is_superuser := false, is_active := true, groups := [] }

/-- The consumer callback URL, with a pre-existing query parameter. -/
def cbURL : URL :=
  { scheme := "https", netloc := "app.example", path := "/cb", params := "",
    query := [("page", "home")], fragment := "" }

/-- An unbound token owned by `consumer1`, created at time 0. -/
def tok1 : Token :=
  { id := 1, request_token := "rt1", access_token := "at1",
    consumer := consumer1, redirect_to := cbURL, timestamp := 0,
    user := none, session := none }

/-- `tok1` after a successful authorization by `user1` in session 11. -/
def tok1bound : Token :=
  { tok1 with user := some user1, session := some 11 }

/-- The default server: both hooks are the base-class implementations. -/
def srvEx : Server :=
  { token_timeout := 100, token_verify_timeout := 300,
    has_access := default_has_access,
    get_user_extra_data := default_get_user_extra_data }

/-- A verify/logout payload naming `tok1`'s access token. -/
def payloadAt1 : Payload :=
  { redirect_to := none, access_token := some "at1", extra_data := none }

/-- A payload with no fields at all. -/
def emptyPayload : Payload :=
  { redirect_to := none, access_token := none, extra_data := none }

/-- An authorize request for `tok1` by the authenticated `user2` in
session 22. -/
def reqU2 : AuthRequest :=
  { token_param := some "rt1", user := some user2, session_key := 22 }

/-- An authorize request with no token parameter. -/
def reqNoToken : AuthRequest :=
  { token_param := none, user := some user1, session_key := 5 }

/-- An authorize request naming a request token no store contains. -/
def reqUnknown : AuthRequest :=
  { token_param := some "zzz", user := some user1, session_key := 5 }

/-- An authorize request for `tok1` by an unauthenticated browser. -/
def reqAnon : AuthRequest :=
  { token_param := some "rt1", user := none, session_key := 5 }

/-- An authorize request for `tok1` by the authenticated `user1` in
session 11. -/
def reqU1 : AuthRequest :=
  { token_param := some "rt1", user := some user1, session_key := 11 }

/-- The masked profile `get_user_data` builds for `user1`. -/
def profile1 : UserData :=
  { username := "alice", email := "alice@example.com", first_name := "Alice",
    last_name := "Liddell", is_staff := false, is_superuser := false,
    is_active := true, groups := ["admins", "editors"], extra_data := none }

/-! ### Helper lemmas -/

/-- Saving twice under the same primary key keeps only the second write. -/
theorem saveToken_twice (ts : TokenStore) (a b : Token) (h : a.id = b.id) :
    saveToken (saveToken ts a) b = saveToken ts b := by
  induction ts with
  | nil => rfl
  | cons t rest ih =>
    simp only [saveToken, List.map_cons] at ih ⊢
    refine congrArg₂ List.cons ?_ ih
    by_cases ht : t.id = a.id
    · simp [ht, h]
    · simp [ht]

/-- Saving a row back never changes the set of primary keys. -/
theorem saveToken_map_id (ts : TokenStore) (tok : Token) :
    (saveToken ts tok).map Token.id = ts.map Token.id := by
  induction ts with
  | nil => rfl
  | cons t rest ih =>
    simp only [saveToken, List.map_cons] at ih ⊢
    refine congrArg₂ List.cons ?_ ih
    by_cases ht : t.id = tok.id
    · simp [ht]
    · simp [ht]

/-- Setting a key that is absent from a query string appends it at the
end, leaving the existing parameters untouched. -/
theorem qdSetItem_of_not_mem (q : List (String × String)) (k v : String)
    (h : ∀ p ∈ q, p.1 ≠ k) : qdSetItem q k v = q ++ [(k, v)] := by
  induction q with
  | nil => rfl
  | cons p rest ih =>
    have hp : p.1 ≠ k := h p (by simp)
    simp only [qdSetItem, List.cons_append]
    rw [if_neg (by simpa using hp)]
    exact congrArg _ (ih (fun r hr => h r (by simp [hr])))

/-- When no stored token carries this access token for this consumer, the
consumer-filtered lookup misses. -/
theorem findByAccessToken_eq_none (ts : TokenStore) (atk : String)
    (c : Consumer) (h : ∀ t ∈ ts, t.access_token = atk → t.consumer ≠ c) :
    findByAccessToken ts atk c = none := by
  rw [findByAccessToken, List.find?_eq_none]
  intro t ht
  by_cases ha : t.access_token = atk
  · simp [ha, h t ht ha]
  · simp [ha]

/-- A token inside its window passes the check untouched. -/
theorem check_token_timeout_live (ts : TokenStore) (tok : Token) (now : Int)
    (timeout : Int) (h : now - tok.timestamp ≤ timeout) :
    check_token_timeout ts tok now timeout = (true, ts) := by
  rw [check_token_timeout]
  simp [not_lt.mpr h]

/-- A token beyond its window fails the check and is deleted. -/
theorem check_token_timeout_expired (ts : TokenStore) (tok : Token)
    (now : Int) (timeout : Int) (h : now - tok.timestamp > timeout) :
    check_token_timeout ts tok now timeout = (false, deleteToken ts tok) := by
  rw [check_token_timeout]
  simp [h]

/-- A live verify writes nothing to the store. -/
theorem verify_live_unchanged (srv : Server) (consumer : Consumer)
    (data : Payload) (now : Int) (ts : TokenStore) (atk : String)
    (tok : Token)
    (hatk : data.access_token = some atk)
    (hfind : findByAccessToken ts atk consumer = some tok)
    (hlive : now - tok.timestamp ≤ srv.token_verify_timeout) :
    storeUnchanged (VerificationProvider.provide srv consumer data now ts)
      ts := by
  intro out ts2 hres
  simp only [VerificationProvider.provide, hatk, hfind,
    check_token_timeout_live ts tok now srv.token_verify_timeout hlive,
    if_true] at hres
  cases htu : tok.user with
  | none =>
    rw [htu] at hres
    simp only [Except.ok.injEq, Prod.mk.injEq] at hres
    exact hres.2.symm
  | some user =>
    rw [htu] at hres
    dsimp only at hres
    cases hgud : srv.get_user_data user consumer
        ((data.extra_data).getD .null) with
    | error f =>
      rw [hgud] at hres
      exact absurd hres (by simp)
    | ok d =>
      rw [hgud] at hres
      simp only [Except.ok.injEq, Prod.mk.injEq] at hres
      exact hres.2.symm

/-- An expired verify deletes the token and rejects the request. -/
theorem verify_expired (srv : Server) (consumer : Consumer) (data : Payload)
    (now : Int) (ts : TokenStore) (atk : String) (tok : Token)
    (hatk : data.access_token = some atk)
    (hfind : findByAccessToken ts atk consumer = some tok)
    (hexp : now - tok.timestamp > srv.token_verify_timeout) :
    VerificationProvider.provide srv consumer data now ts
      = .ok (.http token_timeout_response, deleteToken ts tok) := by
  simp only [VerificationProvider.provide, hatk, hfind,
    check_token_timeout_expired ts tok now srv.token_verify_timeout hexp,
    Bool.false_eq_true, if_false]

/-- An expired logout deletes the token and rejects the request. -/
theorem logout_expired (srv : Server) (consumer : Consumer) (data : Payload)
    (now : Int) (ts : TokenStore) (sessions : List Nat) (atk : String)
    (tok : Token)
    (hatk : data.access_token = some atk)
    (hfind : findByAccessToken ts atk consumer = some tok)
    (hexp : now - tok.timestamp > srv.token_verify_timeout) :
    LogoutProvider.provide srv consumer data now ts sessions
      = .ok (.http token_timeout_response, deleteToken ts tok, sessions) := by
  simp only [LogoutProvider.provide, hatk, hfind,
    check_token_timeout_expired ts tok now srv.token_verify_timeout hexp,
    Bool.false_eq_true, if_false]

/-- A live logout of a token with no bound session answers "Invalid token"
and deletes nothing. -/
theorem logout_live_unbound (srv : Server) (consumer : Consumer)
    (data : Payload) (now : Int) (ts : TokenStore) (sessions : List Nat)
    (atk : String) (tok : Token)
    (hatk : data.access_token = some atk)
    (hfind : findByAccessToken ts atk consumer = some tok)
    (hlive : now - tok.timestamp ≤ srv.token_verify_timeout)
    (hsess : tok.session = none) :
    LogoutProvider.provide srv consumer data now ts sessions
      = .ok (.http token_not_bound, ts, sessions) := by
  simp only [LogoutProvider.provide, hatk, hfind,
    check_token_timeout_live ts tok now srv.token_verify_timeout hlive,
    if_true, hsess]

/-- A live logout of a bound token deletes the session and, by cascade,
every token bound to it. -/
theorem logout_live_bound (srv : Server) (consumer : Consumer)
    (data : Payload) (now : Int) (ts : TokenStore) (sessions : List Nat)
    (atk : String) (tok : Token) (sk : Nat)
    (hatk : data.access_token = some atk)
    (hfind : findByAccessToken ts atk consumer = some tok)
    (hlive : now - tok.timestamp ≤ srv.token_verify_timeout)
    (hsess : tok.session = some sk) :
    LogoutProvider.provide srv consumer data now ts sessions
      = .ok (.statusOk, ts.filter (fun t => t.session ≠ some sk),
             sessions.filter (fun s => s ≠ sk)) := by
  simp only [LogoutProvider.provide, hatk, hfind,
    check_token_timeout_live ts tok now srv.token_verify_timeout hlive,
    if_true, hsess, deleteSessionCascade]

/-- An authorize request with a missing or empty token parameter is a bad
request leaving the store untouched. -/
theorem authorize_get_missing (srv : Server)
    (sign : String → String → String) (authPath requestPath : String)
    (req : AuthRequest) (now : Int) (ts : TokenStore)
    (h : req.token_param = none ∨ req.token_param = some "") :
    AuthorizeView.get srv sign authPath requestPath req now ts
      = (missing_token_argument, ts) := by
  cases h with
  | inl h => simp only [AuthorizeView.get, h]
  | inr h => simp only [AuthorizeView.get, h]; rfl

/-- An authorize request whose token parameter resolves to no stored token
is forbidden, leaving the store untouched. -/
theorem authorize_get_not_found (srv : Server)
    (sign : String → String → String) (authPath requestPath : String)
    (req : AuthRequest) (now : Int) (ts : TokenStore) (rt : String)
    (hparam : req.token_param = some rt) (hne : rt ≠ "")
    (hmiss : findByRequestToken ts rt = none) :
    AuthorizeView.get srv sign authPath requestPath req now ts
      = (token_not_found, ts) := by
  have hne2 : (rt == "") = false := by simpa using hne
  simp only [AuthorizeView.get, hparam, hne2, Bool.false_eq_true, if_false,
    hmiss]

/-- An authorize request for an expired token deletes it and answers
"Token timed out". -/
theorem authorize_get_expired (srv : Server)
    (sign : String → String → String) (authPath requestPath : String)
    (req : AuthRequest) (now : Int) (ts : TokenStore) (rt : String)
    (tok : Token)
    (hparam : req.token_param = some rt) (hne : rt ≠ "")
    (hfind : findByRequestToken ts rt = some tok)
    (hexp : now - tok.timestamp > srv.token_timeout) :
    AuthorizeView.get srv sign authPath requestPath req now ts
      = (token_timeout_response, deleteToken ts tok) := by
  have hne2 : (rt == "") = false := by simpa using hne
  simp only [AuthorizeView.get, hparam, hne2, Bool.false_eq_true, if_false,
    hfind, check_token_timeout_expired ts tok now srv.token_timeout hexp]

/-- An authorize request for a live token by an unauthenticated browser
refreshes the token and redirects to the login view. -/
theorem authorize_get_unauthenticated (srv : Server)
    (sign : String → String → String) (authPath requestPath : String)
    (req : AuthRequest) (now : Int) (ts : TokenStore) (rt : String)
    (tok : Token)
    (hparam : req.token_param = some rt) (hne : rt ≠ "")
    (hfind : findByRequestToken ts rt = some tok)
    (hlive : now - tok.timestamp ≤ srv.token_timeout)
    (huser : req.user = none) :
    AuthorizeView.get srv sign authPath requestPath req now ts
      = (AuthorizeView.handle_unauthenticated_user authPath requestPath
           { tok with timestamp := now },
         saveToken ts { tok with timestamp := now }) := by
  have hne2 : (rt == "") = false := by simpa using hne
  simp only [AuthorizeView.get, hparam, hne2, Bool.false_eq_true, if_false,
    hfind, check_token_timeout_live ts tok now srv.token_timeout hlive,
    refreshToken, huser]
  rfl

/-- An authorize request for a live token by an authenticated user failing
the access policy refreshes the token and answers "Access denied". -/
theorem authorize_get_denied (srv : Server)
    (sign : String → String → String) (authPath requestPath : String)
    (req : AuthRequest) (now : Int) (ts : TokenStore) (rt : String)
    (tok : Token) (u : User)
    (hparam : req.token_param = some rt) (hne : rt ≠ "")
    (hfind : findByRequestToken ts rt = some tok)
    (hlive : now - tok.timestamp ≤ srv.token_timeout)
    (huser : req.user = some u)
    (haccess : srv.has_access u tok.consumer = false) :
    AuthorizeView.get srv sign authPath requestPath req now ts
      = (access_denied, saveToken ts { tok with timestamp := now }) := by
  have hne2 : (rt == "") = false := by simpa using hne
  simp only [AuthorizeView.get, hparam, hne2, Bool.false_eq_true, if_false,
    hfind, check_token_timeout_live ts tok now srv.token_timeout hlive,
    refreshToken, huser, AuthorizeView.handle_authenticated_user, haccess,
    if_false]
  rfl

/-- On the success path the authorize view reduces to `success` on the
refreshed token; the store ends up as a single save of the token carrying
the new timestamp and the requesting user and session. -/
theorem authorize_get_success (srv : Server) (sign : String → String → String)
    (authPath requestPath : String) (req : AuthRequest) (now : Int)
    (ts : TokenStore) (rt : String) (tok : Token) (u : User)
    (hparam : req.token_param = some rt) (hne : rt ≠ "")
    (hfind : findByRequestToken ts rt = some tok)
    (hlive : now - tok.timestamp ≤ srv.token_timeout)
    (huser : req.user = some u)
    (haccess : srv.has_access u tok.consumer = true) :
    AuthorizeView.get srv sign authPath requestPath req now ts
      = (HResponse.redirect
          { scheme := tok.redirect_to.scheme, netloc := tok.redirect_to.netloc,
            path := tok.redirect_to.path, params := "",
            query := qdSetItem tok.redirect_to.query "access_token"
              (sign tok.consumer.private_key tok.access_token),
            fragment := "" },
         saveToken ts
           { tok with
             timestamp := now, user := some u,
             session := some req.session_key }) := by
  have hne2 : (rt == "") = false := by simpa using hne
  simp only [AuthorizeView.get, hparam, hne2, Bool.false_eq_true, if_false,
    hfind, check_token_timeout_live ts tok now srv.token_timeout hlive,
    refreshToken, huser, AuthorizeView.handle_authenticated_user, haccess,
    if_true, AuthorizeView.success]
  rw [saveToken_twice]
  rfl

/-- An authorize request for a live token by an authenticated user hands
the refreshed token and the refreshed store to the access-policy branch. -/
theorem authorize_get_authenticated (srv : Server)
    (sign : String → String → String) (authPath requestPath : String)
    (req : AuthRequest) (now : Int) (ts : TokenStore) (rt : String)
    (tok : Token) (u : User)
    (hparam : req.token_param = some rt) (hne : rt ≠ "")
    (hfind : findByRequestToken ts rt = some tok)
    (hlive : now - tok.timestamp ≤ srv.token_timeout)
    (huser : req.user = some u) :
    AuthorizeView.get srv sign authPath requestPath req now ts
      = AuthorizeView.handle_authenticated_user srv sign u req.session_key
          { tok with timestamp := now }
          (saveToken ts { tok with timestamp := now }) := by
  have hne2 : (rt == "") = false := by simpa using hne
  simp only [AuthorizeView.get, hparam, hne2, Bool.false_eq_true, if_false,
    hfind, check_token_timeout_live ts tok now srv.token_timeout hlive,
    refreshToken, huser]
  rfl

/-- A live authorize request never deletes a row: the resulting store has
the same primary keys as the one it started from. -/
theorem authorize_get_live_ids (srv : Server)
    (sign : String → String → String) (authPath requestPath : String)
    (req : AuthRequest) (now : Int) (ts : TokenStore) (rt : String)
    (tok : Token)
    (hparam : req.token_param = some rt) (hne : rt ≠ "")
    (hfind : findByRequestToken ts rt = some tok)
    (hlive : now - tok.timestamp ≤ srv.token_timeout) :
    ((AuthorizeView.get srv sign authPath requestPath req now ts).2).map
        Token.id = ts.map Token.id := by
  cases huser : req.user with
  | none =>
    rw [authorize_get_unauthenticated srv sign authPath requestPath req now
      ts rt tok hparam hne hfind hlive huser]
    exact saveToken_map_id ts _
  | some u =>
    cases hacc : srv.has_access u tok.consumer with
    | true =>
      rw [authorize_get_success srv sign authPath requestPath req now ts rt
        tok u hparam hne hfind hlive huser hacc]
      exact saveToken_map_id ts _
    | false =>
      rw [authorize_get_denied srv sign authPath requestPath req now ts rt
        tok u hparam hne hfind hlive huser hacc]
      exact saveToken_map_id ts _

/-! ### C1 — binding is not one-time -/

/-- **C1** (counterexample): the claim "a second authorization request
against the same request_token after the Token is already bound does not
overwrite the original (user, session) binding" is false.  `tok1bound` is
bound to `(user1, 11)`; a second authorization by the authenticated `user2`
in session 22 ends with the stored row bound to `(user2, 22)`. -/
theorem C1_counterexample :
    (findByRequestToken
        (AuthorizeView.get srvEx signEx "/login" "/authorize" reqU2 10
          [tok1bound]).2 "rt1").map (fun t => (t.user, t.session))
      = some (some user2, some 22) ∧ user2 ≠ user1 :=
  ⟨rfl, by decide⟩

/-- **C1** (amended): a successful authorization writes the requesting
user and current session into the token row unconditionally; in particular
a second successful authorization against an already-bound request token
overwrites the original (user, session) binding with the new principal's. -/
theorem C1_binding_overwritten (srv : Server)
    (sign : String → String → String) (authPath requestPath : String)
    (req : AuthRequest) (now : Int) (ts : TokenStore) (rt : String)
    (tok : Token) (u : User)
    (hparam : req.token_param = some rt) (hne : rt ≠ "")
    (hfind : findByRequestToken ts rt = some tok)
    (hlive : now - tok.timestamp ≤ srv.token_timeout)
    (huser : req.user = some u)
    (haccess : srv.has_access u tok.consumer = true) :
    (AuthorizeView.get srv sign authPath requestPath req now ts).2
      = saveToken ts
          { tok with
            timestamp := now, user := some u,
            session := some req.session_key } := by
  rw [authorize_get_success srv sign authPath requestPath req now ts rt tok u
    hparam hne hfind hlive huser haccess]

/-- **C1** witness: the amended statement at the concrete re-authorization
of the already-bound `tok1bound` by `user2` in session 22. -/
theorem C1_binding_overwritten_witness :
    (AuthorizeView.get srvEx signEx "/login" "/authorize" reqU2 10
        [tok1bound]).2
      = saveToken [tok1bound]
          { tok1bound with
            timestamp := 10, user := some user2, session := some 22 } :=
  C1_binding_overwritten srvEx signEx "/login" "/authorize" reqU2 10
    [tok1bound] "rt1" tok1bound user2 rfl (by decide) rfl (by decide) rfl rfl

/-! ### C2 — verify checks the window but does not touch -/

/-- **C2** (counterexample): the claim "for every verify request whose
Token satisfies now - timestamp ≤ token_verify_timeout, the Token's
timestamp is refreshed to now" is false.  A verify of `tok1bound`
(timestamp 0) at time 10, well inside `token_verify_timeout = 300`,
succeeds yet leaves the stored timestamp at 0. -/
theorem C2_counterexample :
    VerificationProvider.provide srvEx consumer1 payloadAt1 10 [tok1bound]
      = .ok (.profile profile1, [tok1bound]) ∧
    tok1bound.timestamp = 0 ∧ (0 : Int) ≠ 10 :=
  ⟨rfl, rfl, by decide⟩

/-- **C2** (amended): the verify handler checks expiry against
`token_verify_timeout` but performs no touch: when
`now - timestamp ≤ token_verify_timeout` every non-exception outcome leaves
the store exactly as given (no timestamp refresh), and only when
`now - timestamp > token_verify_timeout` is the request rejected as timed
out, with the Token deleted. -/
theorem C2_verify_no_refresh (srv : Server) (consumer : Consumer)
    (data : Payload) (now : Int) (ts : TokenStore) (atk : String)
    (tok : Token)
    (hatk : data.access_token = some atk)
    (hfind : findByAccessToken ts atk consumer = some tok) :
    (now - tok.timestamp ≤ srv.token_verify_timeout →
      storeUnchanged (VerificationProvider.provide srv consumer data now ts)
        ts) ∧
    (now - tok.timestamp > srv.token_verify_timeout →
      VerificationProvider.provide srv consumer data now ts
        = .ok (.http token_timeout_response, deleteToken ts tok)) :=
  ⟨fun hlive =>
    verify_live_unchanged srv consumer data now ts atk tok hatk hfind hlive,
   fun hexp =>
    verify_expired srv consumer data now ts atk tok hatk hfind hexp⟩

/-- **C2** witness: the amended statement at concrete inputs — a live
verify of `tok1bound` at time 10 writes nothing; an expired verify at time
1000 deletes the token and answers "Token timed out". -/
theorem C2_verify_no_refresh_witness :
    storeUnchanged
      (VerificationProvider.provide srvEx consumer1 payloadAt1 10
        [tok1bound]) [tok1bound] ∧
    VerificationProvider.provide srvEx consumer1 payloadAt1 1000 [tok1bound]
      = .ok (.http token_timeout_response, deleteToken [tok1bound] tok1bound)
    :=
  ⟨(C2_verify_no_refresh srvEx consumer1 payloadAt1 10 [tok1bound] "at1"
      tok1bound rfl rfl).1 (by decide),
   (C2_verify_no_refresh srvEx consumer1 payloadAt1 1000 [tok1bound] "at1"
      tok1bound rfl rfl).2 (by decide)⟩

/-! ### C3 — expiry is one-way consumption, but a live logout also deletes -/

/-- **C3** (counterexample): the claim "when now - timestamp ≤ the timeout
the Token is not deleted" is false for logout: a logout of the live, bound
`tok1bound` at time 10 (inside `token_verify_timeout = 300`) succeeds and
deletes the Token through the session cascade, leaving the store empty. -/
theorem C3_counterexample :
    LogoutProvider.provide srvEx consumer1 payloadAt1 10 [tok1bound] [11]
      = .ok (.statusOk, [], []) ∧
    (10 : Int) - tok1bound.timestamp ≤ srvEx.token_verify_timeout :=
  ⟨rfl, by decide⟩

/-- **C3** (amended): for authorize, verify and logout, a known Token with
`now - timestamp` beyond the applicable timeout (`token_timeout` for
authorize, `token_verify_timeout` for verify/logout) is deleted from the
store and the request answered forbidden "Token timed out".  Within the
window the expiry check deletes nothing: authorize keeps every primary
key, verify writes nothing, and logout deletes the Token only through the
session cascade of a successful logout (and not at all when no session is
bound). -/
theorem C3_expiry_consumption (srv : Server)
    (sign : String → String → String) (authPath requestPath : String)
    (consumer : Consumer) (data : Payload) (req : AuthRequest)
    (ts : TokenStore) (sessions : List Nat) (rt atk : String) (tok : Token)
    (now : Int)
    (hparam : req.token_param = some rt) (hne : rt ≠ "")
    (hfindA : findByRequestToken ts rt = some tok)
    (hatk : data.access_token = some atk)
    (hfindV : findByAccessToken ts atk consumer = some tok) :
    (now - tok.timestamp > srv.token_timeout →
      AuthorizeView.get srv sign authPath requestPath req now ts
        = (token_timeout_response, deleteToken ts tok)) ∧
    (now - tok.timestamp ≤ srv.token_timeout →
      ((AuthorizeView.get srv sign authPath requestPath req now ts).2).map
          Token.id = ts.map Token.id) ∧
    (now - tok.timestamp > srv.token_verify_timeout →
      VerificationProvider.provide srv consumer data now ts
        = .ok (.http token_timeout_response, deleteToken ts tok) ∧
      LogoutProvider.provide srv consumer data now ts sessions
        = .ok (.http token_timeout_response, deleteToken ts tok, sessions)) ∧
    (now - tok.timestamp ≤ srv.token_verify_timeout →
      storeUnchanged (VerificationProvider.provide srv consumer data now ts)
        ts ∧
      (tok.session = none →
        LogoutProvider.provide srv consumer data now ts sessions
          = .ok (.http token_not_bound, ts, sessions)) ∧
      (∀ sk, tok.session = some sk →
        LogoutProvider.provide srv consumer data now ts sessions
          = .ok (.statusOk, ts.filter (fun t => t.session ≠ some sk),
                 sessions.filter (fun s => s ≠ sk)))) := by
  refine ⟨?_, ?_, ?_, ?_⟩
  · intro hexp
    exact authorize_get_expired srv sign authPath requestPath req now ts rt
      tok hparam hne hfindA hexp
  · intro hlive
    exact authorize_get_live_ids srv sign authPath requestPath req now ts rt
      tok hparam hne hfindA hlive
  · intro hexp
    exact ⟨verify_expired srv consumer data now ts atk tok hatk hfindV hexp,
      logout_expired srv consumer data now ts sessions atk tok hatk hfindV
        hexp⟩
  · intro hlive
    refine ⟨verify_live_unchanged srv consumer data now ts atk tok hatk
      hfindV hlive, ?_, ?_⟩
    · intro hsess
      exact logout_live_unbound srv consumer data now ts sessions atk tok
        hatk hfindV hlive hsess
    · intro sk hsess
      exact logout_live_bound srv consumer data now ts sessions atk tok sk
        hatk hfindV hlive hsess

/-- **C3** witness: the amended statement at concrete inputs — at time 1000
all three operations delete `tok1bound` and answer "Token timed out"; at
time 10 the live authorize keeps every row and the live logout consumes
the token through the session cascade. -/
theorem C3_expiry_consumption_witness :
    AuthorizeView.get srvEx signEx "/login" "/authorize" reqU2 1000
        [tok1bound]
      = (token_timeout_response, deleteToken [tok1bound] tok1bound) ∧
    ((AuthorizeView.get srvEx signEx "/login" "/authorize" reqU2 10
        [tok1bound]).2).map Token.id = [tok1bound].map Token.id ∧
    VerificationProvider.provide srvEx consumer1 payloadAt1 1000 [tok1bound]
      = .ok (.http token_timeout_response, deleteToken [tok1bound] tok1bound)
      ∧
    LogoutProvider.provide srvEx consumer1 payloadAt1 1000 [tok1bound] [11]
      = .ok (.http token_timeout_response, deleteToken [tok1bound] tok1bound,
             [11]) ∧
    LogoutProvider.provide srvEx consumer1 payloadAt1 10 [tok1bound] [11]
      = .ok (.statusOk, [tok1bound].filter (fun t => t.session ≠ some 11),
             [11].filter (fun s => s ≠ 11)) := by
  have h1000 := C3_expiry_consumption srvEx signEx "/login" "/authorize"
    consumer1 payloadAt1 reqU2 [tok1bound] [11] "rt1" "at1" tok1bound 1000
    rfl (by decide) rfl rfl rfl
  have h10 := C3_expiry_consumption srvEx signEx "/login" "/authorize"
    consumer1 payloadAt1 reqU2 [tok1bound] [11] "rt1" "at1" tok1bound 10
    rfl (by decide) rfl rfl rfl
  exact ⟨h1000.1 (by decide), h10.2.1 (by decide),
    (h1000.2.2.1 (by decide)).1, (h1000.2.2.1 (by decide)).2,
    (h10.2.2.2 (by decide)).2.2 11 rfl⟩

/-! ### C4 — authorize terminal responses and their order -/

/-- **C4**: terminal responses of the authorize flow in check order — a
missing or empty token parameter is a bad request; an unknown request
token is forbidden "Token not found"; an expired token is deleted and
forbidden "Token timed out"; a live token is refreshed (timestamp set to
now and saved) before the authenticated/unauthenticated branch runs, and
both branches receive the refreshed token and store. -/
theorem C4_authorize_terminal_order (srv : Server)
    (sign : String → String → String) (authPath requestPath : String)
    (req : AuthRequest) (now : Int) (ts : TokenStore) :
    ((req.token_param = none ∨ req.token_param = some "") →
      AuthorizeView.get srv sign authPath requestPath req now ts
        = (missing_token_argument, ts)) ∧
    (∀ rt, req.token_param = some rt → rt ≠ "" →
      findByRequestToken ts rt = none →
      AuthorizeView.get srv sign authPath requestPath req now ts
        = (token_not_found, ts)) ∧
    (∀ rt tok, req.token_param = some rt → rt ≠ "" →
      findByRequestToken ts rt = some tok →
      now - tok.timestamp > srv.token_timeout →
      AuthorizeView.get srv sign authPath requestPath req now ts
        = (token_timeout_response, deleteToken ts tok)) ∧
    (∀ rt tok, req.token_param = some rt → rt ≠ "" →
      findByRequestToken ts rt = some tok →
      now - tok.timestamp ≤ srv.token_timeout →
      (req.user = none →
        AuthorizeView.get srv sign authPath requestPath req now ts
          = (AuthorizeView.handle_unauthenticated_user authPath requestPath
               { tok with timestamp := now },
             saveToken ts { tok with timestamp := now })) ∧
      (∀ u, req.user = some u →
        AuthorizeView.get srv sign authPath requestPath req now ts
          = AuthorizeView.handle_authenticated_user srv sign u
              req.session_key { tok with timestamp := now }
              (saveToken ts { tok with timestamp := now }))) := by
  refine ⟨?_, ?_, ?_, ?_⟩
  · intro h
    exact authorize_get_missing srv sign authPath requestPath req now ts h
  · intro rt hparam hne hmiss
    exact authorize_get_not_found srv sign authPath requestPath req now ts
      rt hparam hne hmiss
  · intro rt tok hparam hne hfind hexp
    exact authorize_get_expired srv sign authPath requestPath req now ts rt
      tok hparam hne hfind hexp
  · intro rt tok hparam hne hfind hlive
    constructor
    · intro huser
      exact authorize_get_unauthenticated srv sign authPath requestPath req
        now ts rt tok hparam hne hfind hlive huser
    · intro u huser
      exact authorize_get_authenticated srv sign authPath requestPath req
        now ts rt tok u hparam hne hfind hlive huser

/-- **C4** witness: the four terminal behaviours at concrete requests
against the store `[tok1]`: no token parameter, an unknown token, an
expired token, and the two live branches. -/
theorem C4_authorize_terminal_order_witness :
    AuthorizeView.get srvEx signEx "/login" "/authorize" reqNoToken 10 [tok1]
      = (missing_token_argument, [tok1]) ∧
    AuthorizeView.get srvEx signEx "/login" "/authorize" reqUnknown 10 [tok1]
      = (token_not_found, [tok1]) ∧
    AuthorizeView.get srvEx signEx "/login" "/authorize" reqU2 1000 [tok1]
      = (token_timeout_response, deleteToken [tok1] tok1) ∧
    AuthorizeView.get srvEx signEx "/login" "/authorize" reqAnon 10 [tok1]
      = (AuthorizeView.handle_unauthenticated_user "/login" "/authorize"
           { tok1 with timestamp := 10 },
         saveToken [tok1] { tok1 with timestamp := 10 }) ∧
    AuthorizeView.get srvEx signEx "/login" "/authorize" reqU2 10 [tok1]
      = AuthorizeView.handle_authenticated_user srvEx signEx user2 22
          { tok1 with timestamp := 10 }
          (saveToken [tok1] { tok1 with timestamp := 10 }) :=
  ⟨(C4_authorize_terminal_order srvEx signEx "/login" "/authorize" reqNoToken
      10 [tok1]).1 (Or.inl rfl),
   (C4_authorize_terminal_order srvEx signEx "/login" "/authorize" reqUnknown
      10 [tok1]).2.1 "zzz" rfl (by decide) rfl,
   (C4_authorize_terminal_order srvEx signEx "/login" "/authorize" reqU2
      1000 [tok1]).2.2.1 "rt1" tok1 rfl (by decide) rfl (by decide),
   ((C4_authorize_terminal_order srvEx signEx "/login" "/authorize" reqAnon
      10 [tok1]).2.2.2 "rt1" tok1 rfl (by decide) rfl (by decide)).1 rfl,
   ((C4_authorize_terminal_order srvEx signEx "/login" "/authorize" reqU2
      10 [tok1]).2.2.2 "rt1" tok1 rfl (by decide) rfl (by decide)).2 user2
      rfl⟩

/-! ### C5 — verification never succeeds for an unbound token -/

/-- **C5**: a verify request whose token exists for this consumer and is
inside the verify window but has no bound user is answered forbidden
"Invalid token" (`token_not_bound`), with no profile and no store
change. -/
theorem C5_unbound_rejected (srv : Server) (consumer : Consumer)
    (data : Payload) (now : Int) (ts : TokenStore) (atk : String)
    (tok : Token)
    (hatk : data.access_token = some atk)
    (hfind : findByAccessToken ts atk consumer = some tok)
    (hlive : now - tok.timestamp ≤ srv.token_verify_timeout)
    (hunbound : tok.user = none) :
    VerificationProvider.provide srv consumer data now ts
      = .ok (.http token_not_bound, ts) := by
  simp only [VerificationProvider.provide, hatk, hfind,
    check_token_timeout_live ts tok now srv.token_verify_timeout hlive,
    if_true, hunbound]

/-- **C5** witness: verifying the live but never-authorized `tok1` yields
"Invalid token". -/
theorem C5_unbound_rejected_witness :
    VerificationProvider.provide srvEx consumer1 payloadAt1 10 [tok1]
      = .ok (.http token_not_bound, [tok1]) :=
  C5_unbound_rejected srvEx consumer1 payloadAt1 10 [tok1] "at1" tok1 rfl
    rfl (by decide) rfl

/-! ### C6 — cross-consumer token isolation -/

/-- **C6**: the access-token lookup of verify and logout also matches the
authenticated consumer; when every stored token carrying this access token
belongs to a different consumer, both answer forbidden "Token not found"
and leave the store (and sessions) unchanged. -/
theorem C6_cross_consumer_isolation (srv : Server) (other : Consumer)
    (data : Payload) (now : Int) (ts : TokenStore) (sessions : List Nat)
    (atk : String)
    (hatk : data.access_token = some atk)
    (hother : ∀ t ∈ ts, t.access_token = atk → t.consumer ≠ other) :
    VerificationProvider.provide srv other data now ts
      = .ok (.http token_not_found, ts) ∧
    LogoutProvider.provide srv other data now ts sessions
      = .ok (.http token_not_found, ts, sessions) := by
  have hmiss := findByAccessToken_eq_none ts atk other hother
  exact ⟨by simp only [VerificationProvider.provide, hatk, hmiss],
    by simp only [LogoutProvider.provide, hatk, hmiss]⟩

/-- **C6** witness: `consumer2` presenting `consumer1`'s valid access token
"at1" is told "Token not found" by both verify and logout, and the bound
`tok1bound` survives untouched. -/
theorem C6_cross_consumer_isolation_witness :
    VerificationProvider.provide srvEx consumer2 payloadAt1 10 [tok1bound]
      = .ok (.http token_not_found, [tok1bound]) ∧
    LogoutProvider.provide srvEx consumer2 payloadAt1 10 [tok1bound] [11]
      = .ok (.http token_not_found, [tok1bound], [11]) :=
  C6_cross_consumer_isolation srvEx consumer2 payloadAt1 10 [tok1bound]
    [11] "at1" rfl (by decide)

/-! ### C7 — profile masking -/

/-- Every profile `get_user_data` hands out carries the user's own
username, email, names, activity flag and group names, and has `is_staff`
and `is_superuser` hard-coded to false. -/
theorem get_user_data_fields (srv : Server) (u : User) (c : Consumer)
    (ed : ExtraPayload) (d : UserData)
    (h : srv.get_user_data u c ed = .ok d) :
    d.username = u.username ∧ d.email = u.email ∧
    d.first_name = u.first_name ∧ d.last_name = u.last_name ∧
    d.is_active = u.is_active ∧ d.groups = u.groups.map Group.name ∧
    d.is_staff = false ∧ d.is_superuser = false := by
  rw [Server.get_user_data] at h
  cases htr : ed.truthy with
  | false =>
    rw [htr] at h
    simp only [Bool.false_eq_true, if_false, Except.ok.injEq] at h
    subst h
    exact ⟨rfl, rfl, rfl, rfl, rfl, rfl, rfl, rfl⟩
  | true =>
    rw [htr] at h
    simp only [if_true] at h
    cases hg : srv.get_user_extra_data u c ed with
    | notImplementedError =>
      rw [hg] at h
      exact absurd h (by simp)
    | value v =>
      rw [hg] at h
      simp only [Except.ok.injEq] at h
      subst h
      exact ⟨rfl, rfl, rfl, rfl, rfl, rfl, rfl, rfl⟩

/-- **C7**: every successful verify returns the bound user's username,
email, first and last name, activity flag and group names, with `is_staff`
and `is_superuser` false regardless of the user's actual staff or
superuser status. -/
theorem C7_profile_masking (srv : Server) (consumer : Consumer)
    (data : Payload) (now : Int) (ts : TokenStore) (atk : String)
    (tok : Token) (u : User) (d : UserData) (ts2 : TokenStore)
    (hatk : data.access_token = some atk)
    (hfind : findByAccessToken ts atk consumer = some tok)
    (hbound : tok.user = some u)
    (hres : VerificationProvider.provide srv consumer data now ts
      = .ok (.profile d, ts2)) :
    d.username = u.username ∧ d.email = u.email ∧
    d.first_name = u.first_name ∧ d.last_name = u.last_name ∧
    d.is_active = u.is_active ∧ d.groups = u.groups.map Group.name ∧
    d.is_staff = false ∧ d.is_superuser = false := by
  simp only [VerificationProvider.provide, hatk, hfind] at hres
  cases hc : check_token_timeout ts tok now srv.token_verify_timeout with
  | mk alive ts3 =>
    rw [hc] at hres
    cases alive with
    | false => exact absurd hres (by simp)
    | true =>
      simp only [eq_self_iff_true, if_true] at hres
      rw [hbound] at hres
      dsimp only at hres
      cases hgud : srv.get_user_data u consumer
          ((data.extra_data).getD .null) with
      | error f =>
        rw [hgud] at hres
        exact absurd hres (by simp)
      | ok d2 =>
        rw [hgud] at hres
        simp only [Except.ok.injEq, Prod.mk.injEq, VerifyOutcome.profile.injEq]
          at hres
        exact hres.1 ▸ get_user_data_fields srv u consumer
          ((data.extra_data).getD .null) d2 hgud

/-- **C7** witness: the profile returned for the staff superuser `user1`
carries the identity fields and group names but reports `is_staff` and
`is_superuser` as false. -/
theorem C7_profile_masking_witness :
    profile1.username = user1.username ∧ profile1.email = user1.email ∧
    profile1.first_name = user1.first_name ∧
    profile1.last_name = user1.last_name ∧
    profile1.is_active = user1.is_active ∧
    profile1.groups = user1.groups.map Group.name ∧
    profile1.is_staff = false ∧ profile1.is_superuser = false :=
  C7_profile_masking srvEx consumer1 payloadAt1 10 [tok1bound] "at1"
    tok1bound user1 profile1 [tok1bound] rfl rfl rfl rfl

/-! ### C8 — the granted redirect -/

/-- **C8**: an authorize request by an authenticated user passing the
access policy binds the Token to the user and current session, signs the
Token's access token with the owning consumer's private key, appends the
signed value as the `access_token` query parameter after the existing
query parameters of `redirect_to`, and answers a redirect to the rebuilt
URL. -/
theorem C8_granted_redirect (srv : Server)
    (sign : String → String → String) (authPath requestPath : String)
    (req : AuthRequest) (now : Int) (ts : TokenStore) (rt : String)
    (tok : Token) (u : User)
    (hparam : req.token_param = some rt) (hne : rt ≠ "")
    (hfind : findByRequestToken ts rt = some tok)
    (hlive : now - tok.timestamp ≤ srv.token_timeout)
    (huser : req.user = some u)
    (haccess : srv.has_access u tok.consumer = true)
    (hnew : ∀ p ∈ tok.redirect_to.query, p.1 ≠ "access_token") :
    AuthorizeView.get srv sign authPath requestPath req now ts
      = (HResponse.redirect
          { scheme := tok.redirect_to.scheme,
            netloc := tok.redirect_to.netloc,
            path := tok.redirect_to.path, params := "",
            query := tok.redirect_to.query ++
              [("access_token",
                sign tok.consumer.private_key tok.access_token)],
            fragment := "" },
         saveToken ts
           { tok with
             timestamp := now, user := some u,
             session := some req.session_key }) := by
  rw [authorize_get_success srv sign authPath requestPath req now ts rt tok
    u hparam hne hfind hlive huser haccess,
    qdSetItem_of_not_mem tok.redirect_to.query _ _ hnew]

/-- **C8** witness: authorizing `tok1` as `user1` in session 11 binds the
token and redirects to `https://app.example/cb` with the original `page`
parameter kept and the signed access token appended. -/
theorem C8_granted_redirect_witness :
    AuthorizeView.get srvEx signEx "/login" "/authorize" reqU1 10 [tok1]
      = (HResponse.redirect
          { scheme := tok1.redirect_to.scheme,
            netloc := tok1.redirect_to.netloc,
            path := tok1.redirect_to.path, params := "",
            query := tok1.redirect_to.query ++
              [("access_token",
                signEx tok1.consumer.private_key tok1.access_token)],
            fragment := "" },
         saveToken [tok1]
           { tok1 with
             timestamp := 10, user := some user1, session := some 11 }) :=
  C8_granted_redirect srvEx signEx "/login" "/authorize" reqU1 10 [tok1]
    "rt1" tok1 user1 rfl (by decide) rfl (by decide) rfl rfl (by decide)

/-! ### C9 — missing payload fields escape as faults -/

/-- A request-token payload carrying `redirect_to`. -/
def rtPayload : Payload :=
  { redirect_to := some cbURL, access_token := none, extra_data := none }

/-- **C9** (counterexample): the claim that a request-token request lacking
`redirect_to` and a verify request lacking `access_token` yield a
structured forbidden/bad-request result is false: both escape the handler
as an uncaught `KeyError` (`BaseProvider.get_response` catches only
`ThrowableHttpResponse`). -/
theorem C9_counterexample :
    RequestTokenProvider.provide consumer1 7 "rt7" "at7" emptyPayload 0 []
      = .error (.keyError "redirect_to") ∧
    VerificationProvider.provide srvEx consumer1 emptyPayload 0 []
      = .error (.keyError "access_token") :=
  ⟨rfl, rfl⟩

/-- A verify/logout payload naming an access token no store contains. -/
def payloadUnknown : Payload :=
  { redirect_to := none, access_token := some "nope", extra_data := none }

/-- **C9** (amended): token-level error conditions surface as structured
forbidden responses — for verify and logout an unknown access token is
answered "Token not found", an expired token "Token timed out", and an
unbound token (no user for verify, no session for logout) "Invalid
token" — and a request-token request with `redirect_to` present always
creates a token and succeeds; but a payload missing a required field —
`redirect_to` for request-token, `access_token` for verify and logout —
escapes the handler as an unhandled `KeyError` rather than a structured
bad-request result. -/
theorem C9_missing_fields_fault (srv : Server) (consumer : Consumer)
    (data : Payload) (now : Int) (ts : TokenStore) (sessions : List Nat)
    (freshId : Nat) (freshRt freshAtk : String) :
    (data.redirect_to = none →
      RequestTokenProvider.provide consumer freshId freshRt freshAtk data
          now ts
        = .error (.keyError "redirect_to")) ∧
    (data.access_token = none →
      VerificationProvider.provide srv consumer data now ts
        = .error (.keyError "access_token") ∧
      LogoutProvider.provide srv consumer data now ts sessions
        = .error (.keyError "access_token")) ∧
    (∀ r, data.redirect_to = some r →
      RequestTokenProvider.provide consumer freshId freshRt freshAtk data
          now ts
        = .ok (freshRt,
               ts ++ [createToken freshId freshRt freshAtk consumer r now]))
    ∧
    (∀ atk, data.access_token = some atk →
      findByAccessToken ts atk consumer = none →
      VerificationProvider.provide srv consumer data now ts
        = .ok (.http token_not_found, ts) ∧
      LogoutProvider.provide srv consumer data now ts sessions
        = .ok (.http token_not_found, ts, sessions)) ∧
    (∀ atk tok, data.access_token = some atk →
      findByAccessToken ts atk consumer = some tok →
      now - tok.timestamp > srv.token_verify_timeout →
      VerificationProvider.provide srv consumer data now ts
        = .ok (.http token_timeout_response, deleteToken ts tok) ∧
      LogoutProvider.provide srv consumer data now ts sessions
        = .ok (.http token_timeout_response, deleteToken ts tok, sessions))
    ∧
    (∀ atk tok, data.access_token = some atk →
      findByAccessToken ts atk consumer = some tok →
      now - tok.timestamp ≤ srv.token_verify_timeout →
      (tok.user = none →
        VerificationProvider.provide srv consumer data now ts
          = .ok (.http token_not_bound, ts)) ∧
      (tok.session = none →
        LogoutProvider.provide srv consumer data now ts sessions
          = .ok (.http token_not_bound, ts, sessions))) := by
  refine ⟨?_, ?_, ?_, ?_, ?_, ?_⟩
  · intro h
    simp only [RequestTokenProvider.provide, h]
  · intro h
    exact ⟨by simp only [VerificationProvider.provide, h],
      by simp only [LogoutProvider.provide, h]⟩
  · intro r h
    simp only [RequestTokenProvider.provide, h]
    rfl
  · intro atk hatk hmiss
    exact ⟨by simp only [VerificationProvider.provide, hatk, hmiss],
      by simp only [LogoutProvider.provide, hatk, hmiss]⟩
  · intro atk tok hatk hfind hexp
    exact ⟨verify_expired srv consumer data now ts atk tok hatk hfind hexp,
      logout_expired srv consumer data now ts sessions atk tok hatk hfind
        hexp⟩
  · intro atk tok hatk hfind hlive
    constructor
    · intro huser
      simp only [VerificationProvider.provide, hatk, hfind,
        check_token_timeout_live ts tok now srv.token_verify_timeout hlive,
        if_true, huser]
    · intro hsess
      exact logout_live_unbound srv consumer data now ts sessions atk tok
        hatk hfind hlive hsess

/-- **C9** witness: the amended statement at concrete payloads — a logout
without `access_token` faults with `KeyError`; a request-token request
carrying `redirect_to` succeeds with a fresh token; an unknown access
token, an expired token and a live token with no bound session each draw a
structured forbidden response. -/
theorem C9_missing_fields_fault_witness :
    LogoutProvider.provide srvEx consumer1 emptyPayload 0 [] []
      = .error (.keyError "access_token") ∧
    RequestTokenProvider.provide consumer1 7 "rt7" "at7" rtPayload 0 []
      = .ok ("rt7", [] ++ [createToken 7 "rt7" "at7" consumer1 cbURL 0]) ∧
    VerificationProvider.provide srvEx consumer1 payloadUnknown 0 [tok1bound]
      = .ok (.http token_not_found, [tok1bound]) ∧
    VerificationProvider.provide srvEx consumer1 payloadAt1 1001 [tok1bound]
      = .ok (.http token_timeout_response, deleteToken [tok1bound] tok1bound)
      ∧
    LogoutProvider.provide srvEx consumer1 payloadAt1 20 [tok1] []
      = .ok (.http token_not_bound, [tok1], []) :=
  ⟨((C9_missing_fields_fault srvEx consumer1 emptyPayload 0 [] [] 7 "rt7"
      "at7").2.1 rfl).2,
   (C9_missing_fields_fault srvEx consumer1 rtPayload 0 [] [] 7 "rt7"
      "at7").2.2.1 cbURL rfl,
   ((C9_missing_fields_fault srvEx consumer1 payloadUnknown 0 [tok1bound]
      [] 7 "rt7" "at7").2.2.2.1 "nope" rfl rfl).1,
   ((C9_missing_fields_fault srvEx consumer1 payloadAt1 1001 [tok1bound]
      [] 7 "rt7" "at7").2.2.2.2.1 "at1" tok1bound rfl rfl (by decide)).1,
   ((C9_missing_fields_fault srvEx consumer1 payloadAt1 20 [tok1] [] 7
      "rt7" "at7").2.2.2.2.2 "at1" tok1 rfl rfl (by decide)).2 rfl⟩

/-! ### C10 — falsy extra_data is ignored -/

/-- **C10**: when the supplied `extra_data` is absent or falsy (e.g. an
empty object) a successful verify returns the profile with no `extra_data`
field and raises nothing; with a truthy `extra_data` the base
`get_user_extra_data` escapes as `NotImplementedError`, while an override
returning a value yields the profile extended with it. -/
theorem C10_falsy_extra_data (srv : Server) (consumer : Consumer)
    (data : Payload) (now : Int) (ts : TokenStore) (atk : String)
    (tok : Token) (u : User)
    (hatk : data.access_token = some atk)
    (hfind : findByAccessToken ts atk consumer = some tok)
    (hlive : now - tok.timestamp ≤ srv.token_verify_timeout)
    (hbound : tok.user = some u) :
    (((data.extra_data).getD .null).truthy = false →
      VerificationProvider.provide srv consumer data now ts
        = .ok (.profile
            { username := u.username, email := u.email,
              first_name := u.first_name, last_name := u.last_name,
              is_staff := false, is_superuser := false,
              is_active := u.is_active, groups := u.groups.map Group.name,
              extra_data := none }, ts)) ∧
    (((data.extra_data).getD .null).truthy = true →
      srv.get_user_extra_data = default_get_user_extra_data →
      VerificationProvider.provide srv consumer data now ts
        = .error .notImplementedError) ∧
    (∀ v, ((data.extra_data).getD .null).truthy = true →
      srv.get_user_extra_data u consumer ((data.extra_data).getD .null)
        = .value v →
      VerificationProvider.provide srv consumer data now ts
        = .ok (.profile
            { username := u.username, email := u.email,
              first_name := u.first_name, last_name := u.last_name,
              is_staff := false, is_superuser := false,
              is_active := u.is_active, groups := u.groups.map Group.name,
              extra_data := some v }, ts)) := by
  have hred : VerificationProvider.provide srv consumer data now ts
      = match srv.get_user_data u consumer ((data.extra_data).getD .null)
          with
        | .error f => .error f
        | .ok d => .ok (.profile d, ts) := by
    simp only [VerificationProvider.provide, hatk, hfind,
      check_token_timeout_live ts tok now srv.token_verify_timeout hlive,
      if_true, hbound]
  refine ⟨?_, ?_, ?_⟩
  · intro hfalsy
    rw [hred, Server.get_user_data, hfalsy]
    rfl
  · intro htruthy hdef
    rw [hred, Server.get_user_data, htruthy, hdef]
    rfl
  · intro v htruthy hval
    rw [hred, Server.get_user_data, htruthy, hval]
    rfl

/-- A verify payload for "at1" carrying a truthy `extra_data` object. -/
def payloadExtra : Payload :=
  { redirect_to := none, access_token := some "at1",
    extra_data := some (.obj [("k", "v")]) }

/-- **C10** witness: with `extra_data` absent the verify of `tok1bound`
returns the bare masked profile; with a truthy `extra_data` and the base
hook it faults with `NotImplementedError`. -/
theorem C10_falsy_extra_data_witness :
    VerificationProvider.provide srvEx consumer1 payloadAt1 10 [tok1bound]
      = .ok (.profile
          { username := user1.username, email := user1.email,
            first_name := user1.first_name, last_name := user1.last_name,
            is_staff := false, is_superuser := false,
            is_active := user1.is_active,
            groups := user1.groups.map Group.name, extra_data := none },
          [tok1bound]) ∧
    VerificationProvider.provide srvEx consumer1 payloadExtra 10 [tok1bound]
      = .error .notImplementedError :=
  ⟨(C10_falsy_extra_data srvEx consumer1 payloadAt1 10 [tok1bound] "at1"
      tok1bound user1 rfl rfl (by decide) rfl).1 rfl,
   (C10_falsy_extra_data srvEx consumer1 payloadExtra 10 [tok1bound] "at1"
      tok1bound user1 rfl rfl (by decide) rfl).2.1 rfl rfl⟩

end SimpleSSO
